import Mathlib

/-!
Verification of `smithy_python/interfaces/http.py`.

The module is a set of structural typing declarations (PEP 544 protocols and
one dataclass).  We embed each declared shape as a Lean structure, a conforming
implementation of a protocol method as a function of the declared type, and the
Python-level calling semantics that the claims depend on (coroutine creation
for `async def`, the dataclass-generated keyword-only constructor and
field-tuple equality) as explicit Lean definitions.
-/

namespace SmithyHttp

/-- Python exceptions that the declarations in this module can raise:
the abstract resolver body raises NotImplementedError, and the
dataclass-generated constructor raises TypeError on positional arguments. -/
inductive PyError where
  | notImplementedError
  | typeError

/-- HeadersList = list[tuple[str, str]]: an ordered list of name/value pairs,
duplicates permitted (the source deliberately uses a list, not a mapping). -/
abbrev HeadersList : Type := List (String × String)

/-- class URL(Protocol): scheme, hostname, port, path, query_params.
No field is validated; any string is accepted for scheme. -/
structure URL where
  scheme : String
  hostname : String
  port : Option Int
  path : String
  query_params : List (String × String)

/-- class Request(Protocol): url, method, headers, body.  The body is typed
`Any` in the source, embedded here as a type parameter. -/
structure Request (α : Type) where
  url : URL
  method : String
  headers : HeadersList
  body : α

/-- class Response(Protocol): status_code, headers, body. -/
structure Response (α : Type) where
  status_code : Int
  headers : HeadersList
  body : α

/-- class Endpoint(Protocol): url, headers. -/
structure Endpoint where
  url : URL
  headers : HeadersList

/-- A Python coroutine object, as produced by calling an `async def` function:
the body has not run yet; driving (awaiting) it runs the body, which either
raises or returns a value. -/
structure Coroutine (α : Type) where
  resume : Except PyError α

/-- Awaiting a coroutine runs its suspended body. -/
def Coroutine.await {α : Type} (c : Coroutine α) : Except PyError α :=
  c.resume

/-- The body of the abstract `EndpointResolver.resolve_endpoint`:
`raise NotImplementedError()`. -/
def resolve_endpoint_abstract_body (EndpointParams : Type) (_params : EndpointParams) :
    Except PyError Endpoint :=
  .error .notImplementedError

/-- Calling the abstract `resolve_endpoint`.  Because it is an `async def`,
the call itself never raises: it returns (.ok) a coroutine whose suspended
body is the raising body above. -/
def resolve_endpoint_abstract_call (EndpointParams : Type) (params : EndpointParams) :
    Except PyError (Coroutine Endpoint) :=
  .ok ⟨resolve_endpoint_abstract_body EndpointParams params⟩

/-- Invoking the abstract `resolve_endpoint` end to end: call it, then await
the returned coroutine (propagating a call-time error if there were one). -/
def resolve_endpoint_abstract_invoke (EndpointParams : Type) (params : EndpointParams) :
    Except PyError Endpoint :=
  match resolve_endpoint_abstract_call EndpointParams params with
  | .error e => .error e
  | .ok co => co.await

/-- Whether an invocation produced a value rather than raising. -/
def exceptOk {ε α : Type} : Except ε α → Bool
  | .ok _ => true
  | .error _ => false

/-- A conforming implementation of `EndpointResolver[EndpointParams]`:
`resolve_endpoint` is an async method, so it maps params to a coroutine
resolving to an Endpoint. -/
structure EndpointResolver (EndpointParams : Type) where
  resolve_endpoint : EndpointParams → Coroutine Endpoint

/-- Contravariant substitution declared by
`EndpointParams = TypeVar("EndpointParams", contravariant=True)`: from a
coercion of a more specific parameter type S into a less specific T, a
resolver over T is used where a resolver over S is expected, by feeding it
the coerced parameters. -/
def EndpointResolver.contramap {S T : Type} (c : S → T) (r : EndpointResolver T) :
    EndpointResolver S :=
  ⟨fun p => r.resolve_endpoint (c p)⟩

/-- @dataclass(kw_only=True) class HttpRequestConfiguration:
read_timeout: float | None = None. -/
structure HttpRequestConfiguration where
  read_timeout : Option Float := none

/-- The dataclass-generated constructor.  With kw_only=True its signature is
`__init__(self, *, read_timeout: float | None = None)`: any positional
argument raises TypeError; read_timeout is accepted only as a keyword and
defaults to None when absent. -/
def HttpRequestConfiguration.pyInit (positional : List (Option Float))
    (kw_read_timeout : Option (Option Float)) :
    Except PyError HttpRequestConfiguration :=
  match positional with
  | [] => .ok { read_timeout := kw_read_timeout.getD none }
  | _ :: _ => .error .typeError

/-- Whether a constructor invocation succeeds. -/
def HttpRequestConfiguration.pyInitOk (positional : List (Option Float))
    (kw_read_timeout : Option (Option Float)) : Bool :=
  exceptOk (HttpRequestConfiguration.pyInit positional kw_read_timeout)

/-- Python `==` on `float | None` values: None equals only None, floats
compare by IEEE equality (as Python float `==` does). -/
def pyFloatOptEq : Option Float → Option Float → Bool
  | none, none => true
  | some x, some y => x == y
  | _, _ => false

/-- The field tuple used by the dataclass-generated `__eq__`
(the class has a single field). -/
def HttpRequestConfiguration.astuple (c : HttpRequestConfiguration) :
    Option Float × Unit :=
  (c.read_timeout, ())

/-- Elementwise comparison of the field tuples. -/
def hrcTupleEq : Option Float × Unit → Option Float × Unit → Bool
  | (a, _), (b, _) => pyFloatOptEq a b

/-- The dataclass-generated `__eq__`: compare the tuples of fields. -/
def HttpRequestConfiguration.pyEq (a b : HttpRequestConfiguration) : Bool :=
  hrcTupleEq a.astuple b.astuple

/-- class HttpClient(Protocol): a conforming implementation exposes
send(request, request_config) returning a Response. -/
structure HttpClient (α β : Type) where
  send : Request α → HttpRequestConfiguration → Response β

/-- class AsyncHttpClient(Protocol): a conforming implementation exposes an
async send, so calling it yields a coroutine resolving to a Response. -/
structure AsyncHttpClient (α β : Type) where
  send : Request α → HttpRequestConfiguration → Coroutine (Response β)

/-- A synchronous client backed by an underlying transport: send returns
exactly the Response the transport delivers for the request. -/
def HttpClient.ofTransport {α β : Type} (t : Request α → Response β) :
    HttpClient α β :=
  ⟨fun req _ => t req⟩

/-- An asynchronous client backed by the same kind of transport. -/
def AsyncHttpClient.ofTransport {α β : Type} (t : Request α → Response β) :
    AsyncHttpClient α β :=
  ⟨fun req _ => ⟨.ok (t req)⟩⟩

/-- Storing a HeadersList into a Request (field assignment in Python). -/
def Request.setHeaders {α : Type} (r : Request α) (h : HeadersList) : Request α :=
  { r with headers := h }

/-- Storing a HeadersList into a Response. -/
def Response.setHeaders {α : Type} (r : Response α) (h : HeadersList) : Response α :=
  { r with headers := h }

/-- Claim C1: for every request and request configuration, a conforming
HttpClient.send returns the Response delivered by the underlying transport
(its status_code and headers are the transport's), and a conforming
AsyncHttpClient.send yields a coroutine resolving to that same Response —
never any other value. -/
theorem httpClient_send_returns_transport_response {α β : Type}
    (t : Request α → Response β) (req : Request α) (cfg : HttpRequestConfiguration) :
    ((HttpClient.ofTransport t).send req cfg).status_code = (t req).status_code ∧
    ((HttpClient.ofTransport t).send req cfg).headers = (t req).headers ∧
    ((HttpClient.ofTransport t).send req cfg) = t req ∧
    ((AsyncHttpClient.ofTransport t).send req cfg).await = .ok (t req) :=
  ⟨rfl, rfl, rfl, rfl⟩

/-- Claim C2: invoking the abstract EndpointResolver.resolve_endpoint
(calling it and driving the resulting coroutine) fails with
NotImplementedError for every params value; it never produces an Endpoint. -/
theorem resolve_endpoint_abstract_raises (EndpointParams : Type) (params : EndpointParams) :
    resolve_endpoint_abstract_invoke EndpointParams params = .error .notImplementedError ∧
    exceptOk (resolve_endpoint_abstract_invoke EndpointParams params) = false :=
  ⟨rfl, rfl⟩

/-- Claim C3: a HttpRequestConfiguration constructed without read_timeout
exposes it as none; constructed with read_timeout = v it exposes exactly
some v. -/
theorem httpRequestConfiguration_read_timeout_exact (v : Float) :
    ({} : HttpRequestConfiguration).read_timeout = none ∧
    ({ read_timeout := some v } : HttpRequestConfiguration).read_timeout = some v :=
  ⟨rfl, rfl⟩

/-- Claim C4: storing any HeadersList as the headers of a Request or a
Response and reading it back yields the same list, so insertion order and
duplicate entries survive the round trip. -/
theorem headers_round_trip {α : Type} (r : Request α) (s : Response α) (h : HeadersList) :
    (r.setHeaders h).headers = h ∧ (s.setHeaders h).headers = h :=
  ⟨rfl, rfl⟩

/-- Claim C6: EndpointParams is contravariant: given a coercion of a more
specific S into a less specific T, a resolver over T substitutes for a
resolver over S, resolving each S-params exactly as the T-resolver resolves
the coerced params. -/
theorem endpointResolver_contravariant (S T : Type) (c : S → T)
    (r : EndpointResolver T) (p : S) :
    (EndpointResolver.contramap c r).resolve_endpoint p = r.resolve_endpoint (c p) :=
  rfl

/-- Claim C7: no scheme validation happens at this layer: a URL is
constructed with any string as its scheme, and embedding it into an Endpoint
or a Request also succeeds, preserving the scheme; no operation of the
module rejects it. -/
theorem url_scheme_unvalidated {α : Type} (s host path method : String)
    (port : Option Int) (qp : List (String × String)) (hl : HeadersList) (b : α) :
    (URL.mk s host port path qp).scheme = s ∧
    (Endpoint.mk (URL.mk s host port path qp) hl).url.scheme = s ∧
    (Request.mk (URL.mk s host port path qp) method hl b).url.scheme = s :=
  ⟨rfl, rfl, rfl⟩

/-- Claim C8: because the abstract resolve_endpoint is an `async def`,
calling it does not raise: it returns (.ok) a coroutine, and the
NotImplementedError surfaces only when that coroutine is awaited. -/
theorem resolve_endpoint_abstract_call_is_lazy (EndpointParams : Type)
    (params : EndpointParams) :
    ∃ co : Coroutine Endpoint,
      resolve_endpoint_abstract_call EndpointParams params = .ok co ∧
      co.await = .error .notImplementedError :=
  ⟨⟨.error .notImplementedError⟩, rfl, rfl⟩

/-- Claim C9: the dataclass-generated constructor is keyword-only: a
positional read_timeout raises TypeError, while the no-argument and
keyword forms succeed — and those are the only successful invocations. -/
theorem httpRequestConfiguration_kw_only (v : Float)
    (positional : List (Option Float)) (kw : Option (Option Float)) :
    HttpRequestConfiguration.pyInit [] none = .ok { read_timeout := none } ∧
    HttpRequestConfiguration.pyInit [] (some (some v)) = .ok { read_timeout := some v } ∧
    HttpRequestConfiguration.pyInit [some v] none = .error .typeError ∧
    HttpRequestConfiguration.pyInitOk positional kw = positional.isEmpty := by
  refine ⟨rfl, rfl, rfl, ?_⟩
  cases positional with
  | nil => rfl
  | cons x xs => rfl

/-- Claim C10: dataclass equality is structural over the single field: two
HttpRequestConfiguration values compare equal exactly when their
read_timeout fields compare equal under Python's `==` on optional floats. -/
theorem httpRequestConfiguration_pyEq_structural (a b : HttpRequestConfiguration) :
    HttpRequestConfiguration.pyEq a b = pyFloatOptEq a.read_timeout b.read_timeout ∧
    (HttpRequestConfiguration.pyEq a b = true ↔
      pyFloatOptEq a.read_timeout b.read_timeout = true) :=
  ⟨rfl, Iff.rfl⟩

end SmithyHttp
